import Mathlib

set_option linter.unusedVariables false

namespace Dumbphone

/-! Shallow embedding of the dumbphonehelp service (src/main.rs, src/models.rs).

The axum/HTTP boundary, tracing and the tokio runtime are external
collaborators; within one request the tool calls are processed strictly
sequentially, so the handler is modelled as a state-passing function over a
`World` that carries the SQLite row set, the UUID random source, per-call
fault schedules for the diesel operations (each diesel call may fail with an
error message, modelling `diesel::result::Error`), and the behaviour of the
external Perplexity HTTP service (modelling the `reqwest` client: a send can
fail with a transport error, and a received response carries an HTTP status
and a body whose read can itself fail; reqwest does not turn a non-2xx
status into an `Err`).  The `PERPLEXITY_API_KEY` environment variable is
assumed to be set: its absence makes `ask_perplexity` abort the process
before any request is sent, a configuration failure outside the per-call
contract embedded here. -/

/-- `Reminder` from src/models.rs: the persisted entity. -/
structure Reminder where
  id : String
  message : String
  remind_at : String
  deriving Repr, DecidableEq

/-- `ToolCallResponse` from src/models.rs: the untagged result union. -/
inductive ToolCallResponse where
  | Single : Reminder → ToolCallResponse
  | Multiple : List Reminder → ToolCallResponse
  | Message : String → ToolCallResponse
  deriving Repr, DecidableEq

/-- `ToolCallResult` from src/models.rs: one correlated result. -/
structure ToolCallResult where
  toolCallId : String
  result : ToolCallResponse
  deriving Repr, DecidableEq

/-- `CreateReminderArgs` from src/main.rs. -/
structure CreateReminderArgs where
  message : String
  remind_at : String
  deriving Repr, DecidableEq

/-- `PerplexityMessageArgs` from src/main.rs. -/
structure PerplexityMessageArgs where
  message : String
  deriving Repr, DecidableEq

/-- `EmptyArgs` from src/main.rs (no fields; serde ignores unknown fields). -/
structure EmptyArgs where
  deriving Repr, DecidableEq

/-- `FunctionArgs` from src/main.rs: the serde `untagged` argument union,
variants in declaration order `Create`, `Message`, `Empty`. -/
inductive FunctionArgs where
  | Create : CreateReminderArgs → FunctionArgs
  | Message : PerplexityMessageArgs → FunctionArgs
  | Empty : EmptyArgs → FunctionArgs
  deriving Repr, DecidableEq

/-- `FunctionCall` from src/main.rs. -/
structure FunctionCall where
  name : String
  arguments : FunctionArgs
  deriving Repr, DecidableEq

/-- `ToolCall` from src/main.rs. -/
structure ToolCall where
  id : String
  function : FunctionCall
  deriving Repr, DecidableEq

/-- JSON values, for the serde argument-shape decoding at the boundary.
Numbers are abstracted to `Int` (no claim inspects a numeric payload beyond
its not being a string).  Object payloads are modelled with their key/value
pairs in order; the claims are read on objects whose keys are distinct
(serde rejects a duplicate *known* field, which no claim exercises). -/
inductive Json where
  | null : Json
  | bool : Bool → Json
  | num : Int → Json
  | str : String → Json
  | arr : List Json → Json
  | obj : List (String × Json) → Json

/-- First value bound to `key`, when `j` is an object and that value is a
JSON string (serde requires the declared `String` fields to be strings). -/
def Json.getStr (j : Json) (key : String) : Option String :=
  match j with
  | Json.obj fields =>
    match List.lookup key fields with
    | some (Json.str s) => some s
    | _ => none
  | _ => none

def Json.isObj : Json → Bool
  | Json.obj _ => true
  | _ => false

/-- serde decoding of `CreateReminderArgs`: both `message` and `remind_at`
must be present as strings; unknown fields are ignored. -/
def decodeCreateReminderArgs (j : Json) : Option CreateReminderArgs :=
  match j.getStr "message", j.getStr "remind_at" with
  | some m, some r => some ⟨m, r⟩
  | _, _ => none

/-- serde decoding of `PerplexityMessageArgs`: `message` must be present as a
string; unknown fields are ignored. -/
def decodePerplexityMessageArgs (j : Json) : Option PerplexityMessageArgs :=
  match j.getStr "message" with
  | some m => some ⟨m⟩
  | none => none

/-- serde decoding of `EmptyArgs`: any JSON object qualifies (all fields are
unknown and ignored). -/
def decodeEmptyArgs (j : Json) : Option EmptyArgs :=
  if j.isObj then some ⟨⟩ else none

/-- serde `untagged` decoding of `FunctionArgs`: the variants are tried in
declaration order — `Create`, then `Message`, then `Empty` — and the first
that decodes wins. -/
def decodeFunctionArgs (j : Json) : Option FunctionArgs :=
  match decodeCreateReminderArgs j with
  | some a => some (FunctionArgs.Create a)
  | none =>
    match decodePerplexityMessageArgs j with
    | some a => some (FunctionArgs.Message a)
    | none =>
      match decodeEmptyArgs j with
      | some a => some (FunctionArgs.Empty a)
      | none => none

/-- Decoding one incoming tool call whose raw `arguments` payload is `j`. -/
def decodeToolCall (id : String) (name : String) (j : Json) : Option ToolCall :=
  match decodeFunctionArgs j with
  | some args => some ⟨id, ⟨name, args⟩⟩
  | none => none

/-- Lower-case hex digit, as produced by `uuid::Uuid::to_string`. -/
def hexChar (d : Nat) : Char :=
  if d < 10 then Char.ofNat (48 + d) else Char.ofNat (87 + d)

/-- Big-endian, zero-padded hex rendering of `n` in exactly `w` digits. -/
def hexDigits : Nat → Nat → List Char
  | 0, _ => []
  | w + 1, n => hexDigits w (n / 16) ++ [hexChar (n % 16)]

/-- The hyphenated 8-4-4-4-12 rendering of a 128-bit value, as produced by
`uuid::Uuid::to_string`. -/
def uuidChars (n : Nat) : List Char :=
  hexDigits 8 (n / 2 ^ 96) ++
    '-' :: (hexDigits 4 (n / 2 ^ 80 % 2 ^ 16) ++
      '-' :: (hexDigits 4 (n / 2 ^ 64 % 2 ^ 16) ++
        '-' :: (hexDigits 4 (n / 2 ^ 48 % 2 ^ 16) ++
          '-' :: hexDigits 12 (n % 2 ^ 48))))

def uuidString (n : Nat) : String :=
  String.mk (uuidChars n)

/-- A received HTTP response, as `reqwest` presents it: a status code and a
body read that can itself fail. -/
structure HttpResponse where
  status : Nat
  text : Except String String

/-- The effect state threaded through the handler: the reminder table, the
random source behind `Uuid::new_v4` (the oracle yields the final 128-bit
value, version/variant bits included), fault schedules for the three diesel
operations (the n-th insert/load/delete fails with the given message), and
the external Perplexity service as a function of the forwarded message. -/
structure World where
  rows : List Reminder
  rand : Nat → Nat
  uuidIdx : Nat
  insertFault : Nat → Option String
  insertIdx : Nat
  loadFault : Nat → Option String
  loadIdx : Nat
  deleteFault : Nat → Option String
  deleteIdx : Nat
  perplexity : String → Except String HttpResponse

/-- `Reminder::new` from src/models.rs: a fresh v4 UUID string plus the
caller's fields, unmodified. -/
def Reminder.new (w : World) (message : String) (remind_at : String) :
    Reminder × World :=
  (⟨uuidString (w.rand w.uuidIdx % 2 ^ 128), message, remind_at⟩,
   { w with uuidIdx := w.uuidIdx + 1 })

/-- `diesel::insert_into(reminders).values(&new_reminder).execute(conn)`:
returns the affected-row count, or a diesel error per the fault schedule. -/
def diesel_insert_execute (w : World) (r : Reminder) :
    Except String Nat × World :=
  match w.insertFault w.insertIdx with
  | some e => (Except.error e, { w with insertIdx := w.insertIdx + 1 })
  | none =>
    (Except.ok 1, { w with insertIdx := w.insertIdx + 1, rows := w.rows ++ [r] })

/-- `create_reminder` from src/main.rs: builds the reminder, runs the insert,
binds its result only to log it, and returns `Ok(new_reminder)`
unconditionally — the insert outcome does not influence the return value. -/
def create_reminder (w : World) (args : CreateReminderArgs) :
    Except String Reminder × World :=
  let p1 := Reminder.new w args.message args.remind_at
  let new_reminder := p1.1
  let p2 := diesel_insert_execute p1.2 new_reminder
  (Except.ok new_reminder, p2.2)

/-- `list_reminders` from src/main.rs: `reminders.load::<Reminder>(conn)`. -/
def list_reminders (w : World) : Except String (List Reminder) × World :=
  match w.loadFault w.loadIdx with
  | some e => (Except.error e, { w with loadIdx := w.loadIdx + 1 })
  | none => (Except.ok w.rows, { w with loadIdx := w.loadIdx + 1 })

/-- `delete_all_reminders` from src/main.rs:
`diesel::delete(reminders).execute(conn)`. -/
def delete_all_reminders (w : World) : Except String Nat × World :=
  match w.deleteFault w.deleteIdx with
  | some e => (Except.error e, { w with deleteIdx := w.deleteIdx + 1 })
  | none =>
    (Except.ok w.rows.length, { w with deleteIdx := w.deleteIdx + 1, rows := [] })

/-- `ask_perplexity` from src/main.rs: posts the fixed chat payload (model
`llama-3.1-sonar-small-128k-online`, system turn `Be precise and concise.`,
user turn `message`) and returns `response.text()` verbatim.  `send()` fails
only on transport errors; a received response of any HTTP status yields its
body as the `Ok` value, since the code never consults the status. -/
def ask_perplexity (w : World) (message : String) : Except String String :=
  match w.perplexity message with
  | Except.error e => Except.error e
  | Except.ok response =>
    match response.text with
    | Except.error e => Except.error e
    | Except.ok result => Except.ok result

/-- The `StatusCode::INTERNAL_SERVER_ERROR` used on every collaborator
failure in `handle_tool_call`. -/
def INTERNAL_SERVER_ERROR : Nat := 500

/-- The body of the per-call `match` inside `handle_tool_call`
(src/main.rs lines 137-172), arms in source order: the guards pair the
function name with the decoded argument shape, and the wildcard arm answers
`"Unknown function call"` without touching any collaborator. -/
def dispatchCall (w : World) (tc : ToolCall) :
    Except (Nat × String) (ToolCallResponse × World) :=
  match tc.function.arguments with
  | FunctionArgs.Empty _ =>
    if tc.function.name = "GetUserReminders" then
      match list_reminders w with
      | (Except.ok reminders, w1) => Except.ok (ToolCallResponse.Multiple reminders, w1)
      | (Except.error e, _) => Except.error (INTERNAL_SERVER_ERROR, e)
    else if tc.function.name = "DeleteAllReminders" then
      match delete_all_reminders w with
      | (Except.ok _, w1) => Except.ok (ToolCallResponse.Multiple [], w1)
      | (Except.error e, _) => Except.error (INTERNAL_SERVER_ERROR, e)
    else Except.ok (ToolCallResponse.Message "Unknown function call", w)
  | FunctionArgs.Create args =>
    if tc.function.name = "StoreUserReminder" then
      match create_reminder w args with
      | (Except.ok reminder, w1) => Except.ok (ToolCallResponse.Single reminder, w1)
      | (Except.error e, _) => Except.error (INTERNAL_SERVER_ERROR, e)
    else Except.ok (ToolCallResponse.Message "Unknown function call", w)
  | FunctionArgs.Message args =>
    if tc.function.name = "AskPerplexity" then
      match ask_perplexity w args.message with
      | Except.ok response => Except.ok (ToolCallResponse.Message response, w)
      | Except.error e => Except.error (INTERNAL_SERVER_ERROR, e)
    else Except.ok (ToolCallResponse.Message "Unknown function call", w)

/-- `handle_tool_call` from src/main.rs: iterates the calls in order, pushing
one correlated `ToolCallResult` per call; the first collaborator failure
aborts the whole request via `?`, so an error return carries no result list
at all. -/
def handle_tool_call : World → List ToolCall →
    Except (Nat × String) (List ToolCallResult × World)
  | w, [] => Except.ok ([], w)
  | w, tc :: rest =>
    match dispatchCall w tc with
    | Except.error e => Except.error e
    | Except.ok (result, w1) =>
      match handle_tool_call w1 rest with
      | Except.error e => Except.error e
      | Except.ok (results, w2) => Except.ok (⟨tc.id, result⟩ :: results, w2)

/-- Does a (name, shape) pair hit one of the four routed arms?  The wildcard
arm fires exactly when this fails. -/
def routed (name : String) (args : FunctionArgs) : Prop :=
  match args with
  | FunctionArgs.Empty _ => name = "GetUserReminders" ∨ name = "DeleteAllReminders"
  | FunctionArgs.Create _ => name = "StoreUserReminder"
  | FunctionArgs.Message _ => name = "AskPerplexity"

/-! The `chrono` collaborator behind `Reminder::into_datetime`
(src/models.rs lines 30-34): `DateTime::parse_from_rfc3339` modelled on the
RFC-3339 grammar `full-date "T" full-time` that chrono accepts (lowercase
`t`/`z` included), with field range checks, optional fractional seconds, and
a numeric UTC offset bounded below 24 hours.  A leap-second input `:60` is
stored chrono-style as second 59 with the nanosecond field pushed past 10^9.
An instant (chrono `DateTime<Utc>`) is represented by its signed nanosecond
count since the Unix epoch; `with_timezone(&Utc)` preserves the instant. -/

def readDigit (c : Char) : Option Nat :=
  if 48 ≤ c.toNat ∧ c.toNat ≤ 57 then some (c.toNat - 48) else none

/-- Reads exactly `w` decimal digits into a number. -/
def readFixedNat : Nat → List Char → Option (Nat × List Char)
  | 0, cs => some (0, cs)
  | _ + 1, [] => none
  | w + 1, c :: cs =>
    match readDigit c, readFixedNat w cs with
    | some d, some (n, rest) => some (d * 10 ^ w + n, rest)
    | _, _ => none

def expectChar (c : Char) : List Char → Option (List Char)
  | [] => none
  | x :: xs => if x = c then some xs else none

def takeDigits : List Char → List Nat × List Char
  | [] => ([], [])
  | c :: cs =>
    match readDigit c with
    | some d =>
      let p := takeDigits cs
      (d :: p.1, p.2)
    | none => ([], c :: cs)

/-- Fractional-second digits as nanoseconds: the first nine digits count,
shorter runs are right-padded with zeros, longer runs are truncated. -/
def nanosOfFrac (ds : List Nat) : Nat :=
  ((ds ++ List.replicate 9 0).take 9).foldl (fun a d => 10 * a + d) 0

/-- Optional `"." 1*DIGIT` fraction; absent fraction is zero nanoseconds. -/
def readFrac : List Char → Option (Nat × List Char)
  | '.' :: cs =>
    match takeDigits cs with
    | ([], _) => none
    | (ds, rest) => some (nanosOfFrac ds, rest)
  | cs => some (0, cs)

/-- `Z`/`z`, or `±hh:mm` with the offset below 24 hours, in minutes. -/
def readOffsetHM (sign : Int) (cs : List Char) : Option (Int × List Char) :=
  match readFixedNat 2 cs with
  | none => none
  | some (hh, cs1) =>
    match expectChar ':' cs1 with
    | none => none
    | some cs2 =>
      match readFixedNat 2 cs2 with
      | none => none
      | some (mm, cs3) =>
        if hh ≤ 23 ∧ mm ≤ 59 then
          some (sign * (Int.ofNat (hh * 60 + mm)), cs3)
        else none

def readOffset : List Char → Option (Int × List Char)
  | 'Z' :: cs => some (0, cs)
  | 'z' :: cs => some (0, cs)
  | '+' :: cs => readOffsetHM 1 cs
  | '-' :: cs => readOffsetHM (-1) cs
  | _ => none

def readDateTimeSep : List Char → Option (List Char)
  | 'T' :: cs => some cs
  | 't' :: cs => some cs
  | _ => none

def isLeapYear (y : Nat) : Bool :=
  y % 4 == 0 && (y % 100 != 0 || y % 400 == 0)

def daysInMonth (y : Nat) (m : Nat) : Nat :=
  if m = 2 then (if isLeapYear y then 29 else 28)
  else if m = 4 ∨ m = 6 ∨ m = 9 ∨ m = 11 then 30
  else 31

/-- Days from 1970-01-01 to the civil date y-m-d (proleptic Gregorian). -/
def daysFromCivil (y : Int) (m : Nat) (d : Nat) : Int :=
  let y2 : Int := if m ≤ 2 then y - 1 else y
  let era : Int := (if 0 ≤ y2 then y2 else y2 - 399) / 400
  let yoe : Int := y2 - era * 400
  let mp : Int := (Int.ofNat m + 9) % 12
  let doy : Int := (153 * mp + 2) / 5 + Int.ofNat d - 1
  let doe : Int := yoe * 365 + yoe / 4 - yoe / 100 + doy
  era * 146097 + doe - 719468

/-- The parsed components of an RFC-3339 date-time with a fixed offset
(chrono `DateTime<FixedOffset>`). -/
structure FixedDateTime where
  year : Nat
  month : Nat
  day : Nat
  hour : Nat
  minute : Nat
  second : Nat
  nanos : Nat
  offsetMinutes : Int
  deriving Repr, DecidableEq

/-- `chrono::DateTime::parse_from_rfc3339`. -/
def parse_from_rfc3339 (s : String) : Option FixedDateTime := do
  let (year, cs) ← readFixedNat 4 s.data
  let cs ← expectChar '-' cs
  let (month, cs) ← readFixedNat 2 cs
  let cs ← expectChar '-' cs
  let (day, cs) ← readFixedNat 2 cs
  let cs ← readDateTimeSep cs
  let (hour, cs) ← readFixedNat 2 cs
  let cs ← expectChar ':' cs
  let (minute, cs) ← readFixedNat 2 cs
  let cs ← expectChar ':' cs
  let (second, cs) ← readFixedNat 2 cs
  let (frac, cs) ← readFrac cs
  let (offsetMinutes, cs) ← readOffset cs
  if cs = [] ∧ 1 ≤ month ∧ month ≤ 12 ∧ 1 ≤ day ∧ day ≤ daysInMonth year month ∧
      hour ≤ 23 ∧ minute ≤ 59 ∧ second ≤ 60 then
    if second = 60 then
      some ⟨year, month, day, hour, minute, 59, frac + 1000000000, offsetMinutes⟩
    else
      some ⟨year, month, day, hour, minute, second, frac, offsetMinutes⟩
  else none

/-- The instant denoted by a parsed date-time, in nanoseconds since the Unix
epoch; this is what `with_timezone(&Utc)` preserves. -/
def FixedDateTime.timestampNanos (t : FixedDateTime) : Int :=
  (daysFromCivil (Int.ofNat t.year) t.month t.day * 86400 +
      Int.ofNat (t.hour * 3600 + t.minute * 60 + t.second) -
      t.offsetMinutes * 60) * 1000000000 + Int.ofNat t.nanos

/-- Outcome of a Rust expression that either produces a value or panics. -/
inductive PanicOr (α : Type) where
  | panicked : String → PanicOr α
  | ok : α → PanicOr α
  deriving Repr, DecidableEq

/-- `Reminder::into_datetime` from src/models.rs: parses `remind_at` as
RFC-3339 and `unwrap`s the result, so an unparseable string panics. -/
def Reminder.into_datetime (r : Reminder) : PanicOr Int :=
  match parse_from_rfc3339 r.remind_at with
  | some t => PanicOr.ok t.timestampNanos
  | none => PanicOr.panicked "called Result::unwrap() on an Err value"

/-- Hex decoder, used only to prove that the UUID rendering is injective. -/
def fromHexDigit (c : Char) : Nat :=
  if 97 ≤ c.toNat then c.toNat - 87 else c.toNat - 48

def fromHex (l : List Char) : Nat :=
  l.foldl (fun a c => 16 * a + fromHexDigit c) 0

/-- A quiet world for concrete runs: empty table, zero random stream, no
diesel faults, and a 200-status Perplexity answer `"ok"`. -/
def baseWorld : World where
  rows := []
  rand := fun _ => 0
  uuidIdx := 0
  insertFault := fun _ => none
  insertIdx := 0
  loadFault := fun _ => none
  loadIdx := 0
  deleteFault := fun _ => none
  deleteIdx := 0
  perplexity := fun _ => Except.ok ⟨200, Except.ok "ok"⟩

/-- A world whose every diesel insert fails with `disk full`. -/
def insertFailWorld : World :=
  { baseWorld with insertFault := fun _ => some "disk full" }

/-- A world whose every diesel load fails with `database is locked`. -/
def loadFailWorld : World :=
  { baseWorld with loadFault := fun _ => some "database is locked" }

/-- A world whose Perplexity endpoint answers HTTP 500 with a readable body. -/
def status500World : World :=
  { baseWorld with
    perplexity := fun _ => Except.ok ⟨500, Except.ok "Internal Server Error"⟩ }

/-- A world whose Perplexity endpoint is unreachable. -/
def netFailWorld : World :=
  { baseWorld with perplexity := fun _ => Except.error "connection refused" }

/-- A tool call with an unknown function name and an empty-shape payload. -/
def unknownCall1 : ToolCall :=
  ⟨"id-1", ⟨"NoSuchFunction", FunctionArgs.Empty ⟨⟩⟩⟩

/-- A world holding one row created from draw 0, with draw 1 up next. -/
def priorWorld : World :=
  { baseWorld with
    rand := fun k => k
    uuidIdx := 1
    rows := [⟨uuidString 0, "old", "2024-01-01T00:00:00Z"⟩] }

theorem hexDigits_length (w : Nat) : ∀ n : Nat, (hexDigits w n).length = w := by
  induction w with
  | zero => intro n; rfl
  | succ w ih => intro n; simp [hexDigits, ih]

theorem fromHexDigit_hexChar : ∀ d : Nat, d < 16 → fromHexDigit (hexChar d) = d := by
  decide

theorem fromHex_append_singleton (l : List Char) (c : Char) :
    fromHex (l ++ [c]) = 16 * fromHex l + fromHexDigit c := by
  simp [fromHex, List.foldl_append]

theorem fromHex_hexDigits (w : Nat) : ∀ n : Nat, n < 16 ^ w →
    fromHex (hexDigits w n) = n := by
  induction w with
  | zero =>
    intro n hn
    interval_cases n
    rfl
  | succ w ih =>
    intro n hn
    have h16 : 0 < 16 := by norm_num
    have h1 : n / 16 < 16 ^ w := by
      rw [Nat.div_lt_iff_lt_mul h16]
      calc n < 16 ^ (w + 1) := hn
        _ = 16 ^ w * 16 := by ring
    have h2 : n % 16 < 16 := Nat.mod_lt _ h16
    rw [hexDigits, fromHex_append_singleton, ih _ h1, fromHexDigit_hexChar _ h2]
    omega

theorem hexDigits_inj (w a b : Nat) (ha : a < 16 ^ w) (hb : b < 16 ^ w)
    (h : hexDigits w a = hexDigits w b) : a = b := by
  have h1 := fromHex_hexDigits w a ha
  have h2 := fromHex_hexDigits w b hb
  rw [h] at h1
  omega

theorem uuidChars_inj (a b : Nat) (ha : a < 2 ^ 128) (hb : b < 2 ^ 128)
    (h : uuidChars a = uuidChars b) : a = b := by
  unfold uuidChars at h
  have hs1 := List.append_inj h (by rw [hexDigits_length, hexDigits_length])
  injection hs1.2 with hc1 h2
  have hs2 := List.append_inj h2 (by rw [hexDigits_length, hexDigits_length])
  injection hs2.2 with hc2 h3
  have hs3 := List.append_inj h3 (by rw [hexDigits_length, hexDigits_length])
  injection hs3.2 with hc3 h4
  have hs4 := List.append_inj h4 (by rw [hexDigits_length, hexDigits_length])
  injection hs4.2 with hc4 h5
  have e1 : a / 2 ^ 96 = b / 2 ^ 96 := by
    refine hexDigits_inj 8 _ _ ?_ ?_ hs1.1
    · rw [Nat.div_lt_iff_lt_mul (by norm_num)]
      calc a < 2 ^ 128 := ha
        _ = 16 ^ 8 * 2 ^ 96 := by norm_num
    · rw [Nat.div_lt_iff_lt_mul (by norm_num)]
      calc b < 2 ^ 128 := hb
        _ = 16 ^ 8 * 2 ^ 96 := by norm_num
  have e2 : a / 2 ^ 80 % 2 ^ 16 = b / 2 ^ 80 % 2 ^ 16 := by
    refine hexDigits_inj 4 _ _ ?_ ?_ hs2.1 <;>
      exact lt_of_lt_of_le (Nat.mod_lt _ (by norm_num)) (by norm_num)
  have e3 : a / 2 ^ 64 % 2 ^ 16 = b / 2 ^ 64 % 2 ^ 16 := by
    refine hexDigits_inj 4 _ _ ?_ ?_ hs3.1 <;>
      exact lt_of_lt_of_le (Nat.mod_lt _ (by norm_num)) (by norm_num)
  have e4 : a / 2 ^ 48 % 2 ^ 16 = b / 2 ^ 48 % 2 ^ 16 := by
    refine hexDigits_inj 4 _ _ ?_ ?_ hs4.1 <;>
      exact lt_of_lt_of_le (Nat.mod_lt _ (by norm_num)) (by norm_num)
  have e5 : a % 2 ^ 48 = b % 2 ^ 48 := by
    refine hexDigits_inj 12 _ _ ?_ ?_ h5 <;>
      exact lt_of_lt_of_le (Nat.mod_lt _ (by norm_num)) (by norm_num)
  have da : a / 2 ^ 80 / 2 ^ 16 = a / 2 ^ 96 := by
    rw [Nat.div_div_eq_div_mul]; norm_num
  have db : b / 2 ^ 80 / 2 ^ 16 = b / 2 ^ 96 := by
    rw [Nat.div_div_eq_div_mul]; norm_num
  have s1 : a / 2 ^ 80 = b / 2 ^ 80 := by omega
  have da2 : a / 2 ^ 64 / 2 ^ 16 = a / 2 ^ 80 := by
    rw [Nat.div_div_eq_div_mul]; norm_num
  have db2 : b / 2 ^ 64 / 2 ^ 16 = b / 2 ^ 80 := by
    rw [Nat.div_div_eq_div_mul]; norm_num
  have s2 : a / 2 ^ 64 = b / 2 ^ 64 := by omega
  have da3 : a / 2 ^ 48 / 2 ^ 16 = a / 2 ^ 64 := by
    rw [Nat.div_div_eq_div_mul]; norm_num
  have db3 : b / 2 ^ 48 / 2 ^ 16 = b / 2 ^ 64 := by
    rw [Nat.div_div_eq_div_mul]; norm_num
  have s3 : a / 2 ^ 48 = b / 2 ^ 48 := by omega
  omega

theorem uuidChars_length (n : Nat) : (uuidChars n).length = 36 := by
  simp [uuidChars, hexDigits_length]

theorem uuidString_inj (a b : Nat) (ha : a < 2 ^ 128) (hb : b < 2 ^ 128)
    (h : uuidString a = uuidString b) : a = b := by
  refine uuidChars_inj a b ha hb ?_
  have h2 := congrArg String.data h
  simpa [uuidString] using h2

theorem uuidString_ne_empty (n : Nat) : uuidString n ≠ "" := by
  intro h
  have h2 := congrArg (fun s => s.data.length) h
  simp only [uuidString] at h2
  rw [uuidChars_length n] at h2
  simp at h2

/-- C1: whenever `handle_tool_call` returns a result list, it contains
exactly one `ToolCallResult` per input tool call, in input order, and for
every index the result's `toolCallId` is the input call's `id` copied
verbatim. -/
theorem handle_tool_call_results_correlate (w : World) (calls : List ToolCall)
    (results : List ToolCallResult) (w' : World)
    (h : handle_tool_call w calls = Except.ok (results, w')) :
    results.length = calls.length ∧
    results.map ToolCallResult.toolCallId = calls.map ToolCall.id := by
  induction calls generalizing w results w' with
  | nil =>
    simp only [handle_tool_call, Except.ok.injEq, Prod.mk.injEq] at h
    obtain ⟨h1, h2⟩ := h
    subst h1
    simp
  | cons tc rest ih =>
    simp only [handle_tool_call] at h
    cases hd : dispatchCall w tc with
    | error e => simp [hd] at h
    | ok pr =>
      obtain ⟨resp, w1⟩ := pr
      simp only [hd] at h
      cases hr : handle_tool_call w1 rest with
      | error e => simp [hr] at h
      | ok pr2 =>
        obtain ⟨res2, w2⟩ := pr2
        simp only [hr] at h
        simp only [Except.ok.injEq, Prod.mk.injEq] at h
        obtain ⟨h1, h2⟩ := h
        subst h1
        obtain ⟨ih1, ih2⟩ := ih w1 res2 w2 hr
        simp [ih1, ih2]

/-- C1 witness: one unknown call produces exactly one correlated result. -/
theorem handle_tool_call_results_correlate_witness :
    ([ToolCallResult.mk "id-1" (ToolCallResponse.Message "Unknown function call")].length
        = [unknownCall1].length) ∧
    ([ToolCallResult.mk "id-1" (ToolCallResponse.Message "Unknown function call")].map
        ToolCallResult.toolCallId = [unknownCall1].map ToolCall.id) :=
  handle_tool_call_results_correlate baseWorld [unknownCall1]
    [ToolCallResult.mk "id-1" (ToolCallResponse.Message "Unknown function call")]
    baseWorld (by rfl)

/-- C6: a call whose (name, shape) pair hits no routing arm gets the fixed
`"Unknown function call"` string result under its own `toolCallId`, and the
world — the reminder table included — is returned unchanged. -/
theorem unknown_call_untouched_world (w : World) (tc : ToolCall)
    (h : ¬ routed tc.function.name tc.function.arguments) :
    dispatchCall w tc
      = Except.ok (ToolCallResponse.Message "Unknown function call", w) ∧
    handle_tool_call w [tc]
      = Except.ok ([⟨tc.id, ToolCallResponse.Message "Unknown function call"⟩], w) := by
  obtain ⟨id, fc⟩ := tc
  obtain ⟨name, args⟩ := fc
  cases args with
  | Empty a =>
    simp only [routed] at h
    push_neg at h
    obtain ⟨h1, h2⟩ := h
    exact ⟨by simp [dispatchCall, h1, h2], by simp [handle_tool_call, dispatchCall, h1, h2]⟩
  | Create a =>
    simp only [routed] at h
    exact ⟨by simp [dispatchCall, h], by simp [handle_tool_call, dispatchCall, h]⟩
  | Message a =>
    simp only [routed] at h
    exact ⟨by simp [dispatchCall, h], by simp [handle_tool_call, dispatchCall, h]⟩

/-- C6 witness: `NoSuchFunction` with an empty payload on the base world. -/
theorem unknown_call_untouched_world_witness :
    dispatchCall baseWorld unknownCall1
      = Except.ok (ToolCallResponse.Message "Unknown function call", baseWorld) ∧
    handle_tool_call baseWorld [unknownCall1]
      = Except.ok ([⟨"id-1", ToolCallResponse.Message "Unknown function call"⟩], baseWorld) :=
  unknown_call_untouched_world baseWorld unknownCall1 (by simp [routed, unknownCall1])

/-- C9: the serde `untagged` decoding of `FunctionArgs` is total on JSON
object payloads — the `Empty` fallback accepts any object — so an object
payload can never fail all three shapes; only a (name, shape) pairing
mismatch can make a call unrecognized. -/
theorem decodeFunctionArgs_total_on_objects (fields : List (String × Json)) :
    (decodeFunctionArgs (Json.obj fields)).isSome = true := by
  unfold decodeFunctionArgs
  cases h1 : decodeCreateReminderArgs (Json.obj fields) with
  | some a => rfl
  | none =>
    cases h2 : decodePerplexityMessageArgs (Json.obj fields) with
    | some a => rfl
    | none => rfl

/-- C2: evidence against the claim.  When the diesel insert fails (here:
every insert fails with `disk full`), `create_reminder` still returns
`Ok(reminder)`, the request completes with a success result list, and the
table keeps no row — the failed write is silently dropped, not reported. -/
theorem create_reminder_swallows_insert_failure :
    create_reminder insertFailWorld ⟨"buy milk", "2025-01-01T09:00:00Z"⟩
      = (Except.ok ⟨uuidString 0, "buy milk", "2025-01-01T09:00:00Z"⟩,
         { insertFailWorld with uuidIdx := 1, insertIdx := 1 }) ∧
    handle_tool_call insertFailWorld
        [⟨"1", ⟨"StoreUserReminder",
          FunctionArgs.Create ⟨"buy milk", "2025-01-01T09:00:00Z"⟩⟩⟩]
      = Except.ok
          ([⟨"1", ToolCallResponse.Single
              ⟨uuidString 0, "buy milk", "2025-01-01T09:00:00Z"⟩⟩],
           { insertFailWorld with uuidIdx := 1, insertIdx := 1 }) ∧
    ({ insertFailWorld with uuidIdx := 1, insertIdx := 1 } : World).rows = [] :=
  ⟨rfl, rfl, rfl⟩

/-- C3 counterexample: the external service answers HTTP 500 with the body
`Internal Server Error`; the forward returns that body as a success string
and the batch completes without any error, refuting the claim that a
non-success response surfaces as a forwarding error. -/
theorem non_success_response_returns_ok :
    status500World.perplexity "q"
      = Except.ok ⟨500, Except.ok "Internal Server Error"⟩ ∧
    ask_perplexity status500World "q" = Except.ok "Internal Server Error" ∧
    handle_tool_call status500World
        [⟨"7", ⟨"AskPerplexity", FunctionArgs.Message ⟨"q"⟩⟩⟩]
      = Except.ok
          ([⟨"7", ToolCallResponse.Message "Internal Server Error"⟩], status500World) :=
  ⟨rfl, rfl, rfl⟩

/-- C3 (amended): a transport failure — the send failing, or the response
body read failing — surfaces as a forwarding error that aborts the whole
batch request with the internal-error classification; a received response is
never an error, whatever its HTTP status: its body is returned verbatim as
the call's string result. -/
theorem ask_perplexity_error_policy :
    (∀ (w : World) (tcid msg e : String) (rest : List ToolCall),
      w.perplexity msg = Except.error e →
      handle_tool_call w
          (⟨tcid, ⟨"AskPerplexity", FunctionArgs.Message ⟨msg⟩⟩⟩ :: rest)
        = Except.error (INTERNAL_SERVER_ERROR, e)) ∧
    (∀ (w : World) (tcid msg e : String) (status : Nat) (rest : List ToolCall),
      w.perplexity msg = Except.ok ⟨status, Except.error e⟩ →
      handle_tool_call w
          (⟨tcid, ⟨"AskPerplexity", FunctionArgs.Message ⟨msg⟩⟩⟩ :: rest)
        = Except.error (INTERNAL_SERVER_ERROR, e)) ∧
    (∀ (w : World) (tcid msg body : String) (status : Nat),
      w.perplexity msg = Except.ok ⟨status, Except.ok body⟩ →
      handle_tool_call w [⟨tcid, ⟨"AskPerplexity", FunctionArgs.Message ⟨msg⟩⟩⟩]
        = Except.ok ([⟨tcid, ToolCallResponse.Message body⟩], w)) := by
  refine ⟨?_, ?_, ?_⟩
  · intro w tcid msg e rest hp
    simp [handle_tool_call, dispatchCall, ask_perplexity, hp]
  · intro w tcid msg e status rest hp
    simp [handle_tool_call, dispatchCall, ask_perplexity, hp]
  · intro w tcid msg body status hp
    simp [handle_tool_call, dispatchCall, ask_perplexity, hp]

/-- C3 witness: a refused connection aborts the batch with an internal
error; an HTTP 500 with a readable body completes as a success result. -/
theorem ask_perplexity_error_policy_witness :
    handle_tool_call netFailWorld
        [⟨"1", ⟨"AskPerplexity", FunctionArgs.Message ⟨"q"⟩⟩⟩]
      = Except.error (INTERNAL_SERVER_ERROR, "connection refused") ∧
    handle_tool_call status500World
        [⟨"9", ⟨"AskPerplexity", FunctionArgs.Message ⟨"q"⟩⟩⟩]
      = Except.ok
          ([⟨"9", ToolCallResponse.Message "Internal Server Error"⟩], status500World) :=
  ⟨ask_perplexity_error_policy.1 netFailWorld "1" "q" "connection refused" [] rfl,
   ask_perplexity_error_policy.2.2 status500World "9" "q" "Internal Server Error" 500 rfl⟩

/-- C4: the untagged decoder tries the creation shape first, so an object
payload carrying both `message` and `remind_at` as strings decodes to the
creation shape — never the forwarding or empty shape — and a
`StoreUserReminder` call with such a payload always yields a single
`Reminder` result, never a string, whatever the insert outcome. -/
theorem storeUserReminder_creation_shape (fields : List (String × Json))
    (m r : String) (w : World) (tcid : String)
    (hnodup : (fields.map Prod.fst).Nodup)
    (hm : (Json.obj fields).getStr "message" = some m)
    (hr : (Json.obj fields).getStr "remind_at" = some r) :
    decodeFunctionArgs (Json.obj fields) = some (FunctionArgs.Create ⟨m, r⟩) ∧
    decodeToolCall tcid "StoreUserReminder" (Json.obj fields)
      = some ⟨tcid, ⟨"StoreUserReminder", FunctionArgs.Create ⟨m, r⟩⟩⟩ ∧
    ∃ (rem : Reminder) (w' : World),
      handle_tool_call w [⟨tcid, ⟨"StoreUserReminder", FunctionArgs.Create ⟨m, r⟩⟩⟩]
        = Except.ok ([⟨tcid, ToolCallResponse.Single rem⟩], w') := by
  have hdec : decodeFunctionArgs (Json.obj fields)
      = some (FunctionArgs.Create ⟨m, r⟩) := by
    simp [decodeFunctionArgs, decodeCreateReminderArgs, hm, hr]
  refine ⟨hdec, by simp [decodeToolCall, hdec], ?_⟩
  refine ⟨⟨uuidString (w.rand w.uuidIdx % 2 ^ 128), m, r⟩, ?_⟩
  cases hins : w.insertFault w.insertIdx with
  | some e =>
    refine ⟨{ w with
        uuidIdx := w.uuidIdx + 1
        insertIdx := w.insertIdx + 1 }, ?_⟩
    simp [handle_tool_call, dispatchCall, create_reminder, Reminder.new,
      diesel_insert_execute, hins]
  | none =>
    refine ⟨{ w with
        uuidIdx := w.uuidIdx + 1
        insertIdx := w.insertIdx + 1
        rows := w.rows ++ [⟨uuidString (w.rand w.uuidIdx % 2 ^ 128), m, r⟩] }, ?_⟩
    simp [handle_tool_call, dispatchCall, create_reminder, Reminder.new,
      diesel_insert_execute, hins]

/-- C4 witness: the end-to-end scenario-A payload. -/
theorem storeUserReminder_creation_shape_witness :
    decodeFunctionArgs (Json.obj [("message", Json.str "buy milk"),
        ("remind_at", Json.str "2025-01-01T09:00:00Z")])
      = some (FunctionArgs.Create ⟨"buy milk", "2025-01-01T09:00:00Z"⟩) ∧
    decodeToolCall "1" "StoreUserReminder"
        (Json.obj [("message", Json.str "buy milk"),
          ("remind_at", Json.str "2025-01-01T09:00:00Z")])
      = some ⟨"1", ⟨"StoreUserReminder",
          FunctionArgs.Create ⟨"buy milk", "2025-01-01T09:00:00Z"⟩⟩⟩ ∧
    ∃ (rem : Reminder) (w' : World),
      handle_tool_call baseWorld
          [⟨"1", ⟨"StoreUserReminder",
            FunctionArgs.Create ⟨"buy milk", "2025-01-01T09:00:00Z"⟩⟩⟩]
        = Except.ok ([⟨"1", ToolCallResponse.Single rem⟩], w') :=
  storeUserReminder_creation_shape
    [("message", Json.str "buy milk"), ("remind_at", Json.str "2025-01-01T09:00:00Z")]
    "buy milk" "2025-01-01T09:00:00Z" baseWorld "1" (by decide) rfl rfl

theorem dispatchCall_error_code (w : World) (tc : ToolCall) (e : Nat × String)
    (h : dispatchCall w tc = Except.error e) : e.1 = INTERNAL_SERVER_ERROR := by
  obtain ⟨id, fc⟩ := tc
  obtain ⟨name, args⟩ := fc
  cases args <;> simp only [dispatchCall] at h <;>
    (repeat' split at h) <;>
    first
      | exact Except.noConfusion h
      | (injection h with h2; rw [← h2])

/-- C5: if handling a prefix of the batch succeeds and the next call's
store or forwarder operation fails, the whole request fails with exactly the
internal-error classification carrying that collaborator's message, whatever
calls follow; the error return carries no result list at all, so no partial
results — in particular none for the calls before the failing index — are
returned. -/
theorem batch_aborts_on_collaborator_failure (w : World) (pre : List ToolCall)
    (c : ToolCall) (rest : List ToolCall) (res : List ToolCallResult)
    (w1 : World) (e : Nat × String)
    (hpre : handle_tool_call w pre = Except.ok (res, w1))
    (hc : dispatchCall w1 c = Except.error e) :
    handle_tool_call w (pre ++ c :: rest) = Except.error e ∧
    e.1 = INTERNAL_SERVER_ERROR := by
  refine ⟨?_, dispatchCall_error_code w1 c e hc⟩
  induction pre generalizing w res with
  | nil =>
    simp only [handle_tool_call, Except.ok.injEq, Prod.mk.injEq] at hpre
    obtain ⟨h1, h2⟩ := hpre
    subst h2
    simp [handle_tool_call, hc]
  | cons tc pre' ih =>
    simp only [handle_tool_call, List.cons_append, List.append_eq] at hpre ⊢
    cases hd : dispatchCall w tc with
    | error e2 => simp [hd] at hpre
    | ok pr =>
      obtain ⟨resp, wmid⟩ := pr
      simp only [hd] at hpre ⊢
      cases hrec : handle_tool_call wmid pre' with
      | error e2 => simp [hrec] at hpre
      | ok pr2 =>
        obtain ⟨res2, w2⟩ := pr2
        simp only [hrec, Except.ok.injEq, Prod.mk.injEq] at hpre
        obtain ⟨h1, h2⟩ := hpre
        subst h2
        rw [ih wmid res2 hrec]

/-- C7: `create_reminder` returns the stored entity with `message` and
`remind_at` equal to the input verbatim and a non-empty id; and when every
prior row's id came from an earlier draw of the UUID source and the current
draw repeats none of those values (the collision-negligible randomness
assumption made explicit), the new id differs from every previously created
record's id. -/
theorem create_reminder_fresh_and_verbatim (w : World) (args : CreateReminderArgs)
    (hprior : ∀ rm ∈ w.rows, ∃ k, k < w.uuidIdx ∧
      rm.id = uuidString (w.rand k % 2 ^ 128))
    (hfresh : ∀ k, k < w.uuidIdx →
      w.rand k % 2 ^ 128 ≠ w.rand w.uuidIdx % 2 ^ 128) :
    ∃ (rem : Reminder) (w' : World),
      create_reminder w args = (Except.ok rem, w') ∧
      rem.message = args.message ∧
      rem.remind_at = args.remind_at ∧
      rem.id ≠ "" ∧
      ∀ rm ∈ w.rows, rm.id ≠ rem.id := by
  have hdistinct : ∀ rm ∈ w.rows,
      rm.id ≠ uuidString (w.rand w.uuidIdx % 2 ^ 128) := by
    intro rm hm heq
    obtain ⟨k, hk, hid⟩ := hprior rm hm
    rw [hid] at heq
    exact hfresh k hk (uuidString_inj _ _
      (Nat.mod_lt _ (by norm_num)) (Nat.mod_lt _ (by norm_num)) heq)
  cases hins : w.insertFault w.insertIdx with
  | some e =>
    refine ⟨⟨uuidString (w.rand w.uuidIdx % 2 ^ 128), args.message, args.remind_at⟩,
      { w with
        uuidIdx := w.uuidIdx + 1
        insertIdx := w.insertIdx + 1 }, ?_, rfl, rfl, uuidString_ne_empty _, hdistinct⟩
    simp [create_reminder, Reminder.new, diesel_insert_execute, hins]
  | none =>
    refine ⟨⟨uuidString (w.rand w.uuidIdx % 2 ^ 128), args.message, args.remind_at⟩,
      { w with
        uuidIdx := w.uuidIdx + 1
        insertIdx := w.insertIdx + 1
        rows := w.rows ++
          [⟨uuidString (w.rand w.uuidIdx % 2 ^ 128), args.message, args.remind_at⟩] },
      ?_, rfl, rfl, uuidString_ne_empty _, hdistinct⟩
    simp [create_reminder, Reminder.new, diesel_insert_execute, hins]

/-- C8: with the deletes and the load succeeding, `deleteAll` empties the
table, an immediately following `listAll` returns the empty sequence, a
second consecutive `deleteAll` also succeeds (removing zero rows), and the
dispatcher answers a `DeleteAllReminders` call with the empty list — also
when the store was already empty, as in the witness. -/
theorem deleteAll_then_listAll_empty (w : World) (tcid : String)
    (hd1 : w.deleteFault w.deleteIdx = none)
    (hl : w.loadFault w.loadIdx = none)
    (hd2 : w.deleteFault (w.deleteIdx + 1) = none) :
    (delete_all_reminders w).1 = Except.ok w.rows.length ∧
    ((delete_all_reminders w).2).rows = [] ∧
    (list_reminders (delete_all_reminders w).2).1 = Except.ok [] ∧
    (delete_all_reminders (delete_all_reminders w).2).1 = Except.ok 0 ∧
    handle_tool_call w [⟨tcid, ⟨"DeleteAllReminders", FunctionArgs.Empty ⟨⟩⟩⟩]
      = Except.ok ([⟨tcid, ToolCallResponse.Multiple []⟩],
          (delete_all_reminders w).2) := by
  refine ⟨?_, ?_, ?_, ?_, ?_⟩ <;>
    simp [handle_tool_call, dispatchCall, delete_all_reminders, list_reminders,
      hd1, hl, hd2]

/-- C10: `into_datetime` returns the corresponding UTC instant exactly when
`remind_at` parses as RFC-3339 and panics on any unparseable string; the
panic branch is reachable on stored data because `create_reminder` performs
no validation of `remind_at` at write time. -/
theorem into_datetime_ok_or_panics :
    (∀ (r : Reminder) (t : FixedDateTime),
      parse_from_rfc3339 r.remind_at = some t →
      r.into_datetime = PanicOr.ok t.timestampNanos) ∧
    (∀ r : Reminder, parse_from_rfc3339 r.remind_at = none →
      r.into_datetime
        = PanicOr.panicked "called Result::unwrap() on an Err value") ∧
    (∀ (w : World) (args : CreateReminderArgs),
      parse_from_rfc3339 args.remind_at = none →
      w.insertFault w.insertIdx = none →
      ∃ (rem : Reminder) (w' : World),
        create_reminder w args = (Except.ok rem, w') ∧
        rem ∈ w'.rows ∧
        rem.into_datetime
          = PanicOr.panicked "called Result::unwrap() on an Err value") := by
  refine ⟨?_, ?_, ?_⟩
  · intro r t hp
    simp [Reminder.into_datetime, hp]
  · intro r hp
    simp [Reminder.into_datetime, hp]
  · intro w args hp hins
    refine ⟨⟨uuidString (w.rand w.uuidIdx % 2 ^ 128), args.message, args.remind_at⟩,
      { w with
        uuidIdx := w.uuidIdx + 1
        insertIdx := w.insertIdx + 1
        rows := w.rows ++
          [⟨uuidString (w.rand w.uuidIdx % 2 ^ 128), args.message, args.remind_at⟩] },
      ?_, ?_, ?_⟩
    · simp [create_reminder, Reminder.new, diesel_insert_execute, hins]
    · simp
    · simp [Reminder.into_datetime, hp]

/-- C5 witness: a failing load in the middle of a three-call batch. -/
theorem batch_aborts_on_collaborator_failure_witness :
    handle_tool_call loadFailWorld
        ([unknownCall1] ++
          ⟨"g", ⟨"GetUserReminders", FunctionArgs.Empty ⟨⟩⟩⟩ :: [unknownCall1])
      = Except.error (INTERNAL_SERVER_ERROR, "database is locked") ∧
    ((INTERNAL_SERVER_ERROR, "database is locked") : Nat × String).1
      = INTERNAL_SERVER_ERROR :=
  batch_aborts_on_collaborator_failure loadFailWorld [unknownCall1]
    ⟨"g", ⟨"GetUserReminders", FunctionArgs.Empty ⟨⟩⟩⟩ [unknownCall1]
    [⟨"id-1", ToolCallResponse.Message "Unknown function call"⟩] loadFailWorld
    (INTERNAL_SERVER_ERROR, "database is locked") rfl rfl

/-- C7 witness: creating on a world that already holds the draw-0 row. -/
theorem create_reminder_fresh_and_verbatim_witness :
    ∃ (rem : Reminder) (w' : World),
      create_reminder priorWorld ⟨"buy milk", "2025-01-01T09:00:00Z"⟩
        = (Except.ok rem, w') ∧
      rem.message = "buy milk" ∧
      rem.remind_at = "2025-01-01T09:00:00Z" ∧
      rem.id ≠ "" ∧
      ∀ rm ∈ priorWorld.rows, rm.id ≠ rem.id :=
  create_reminder_fresh_and_verbatim priorWorld ⟨"buy milk", "2025-01-01T09:00:00Z"⟩
    (by
      intro rm hm
      simp only [priorWorld, List.mem_singleton] at hm
      exact ⟨0, by decide, by rw [hm]; rfl⟩)
    (by decide)

/-- C8 witness: `DeleteAllReminders` on the already-empty base world. -/
theorem deleteAll_then_listAll_empty_witness :
    (delete_all_reminders baseWorld).1 = Except.ok baseWorld.rows.length ∧
    ((delete_all_reminders baseWorld).2).rows = [] ∧
    (list_reminders (delete_all_reminders baseWorld).2).1 = Except.ok [] ∧
    (delete_all_reminders (delete_all_reminders baseWorld).2).1 = Except.ok 0 ∧
    handle_tool_call baseWorld [⟨"5", ⟨"DeleteAllReminders", FunctionArgs.Empty ⟨⟩⟩⟩]
      = Except.ok ([⟨"5", ToolCallResponse.Multiple []⟩],
          (delete_all_reminders baseWorld).2) :=
  deleteAll_then_listAll_empty baseWorld "5" rfl rfl rfl

/-- C10 witness: a parseable offset timestamp maps to its UTC instant, an
unparseable one panics, and an unparseable one is accepted and stored. -/
theorem into_datetime_ok_or_panics_witness :
    ((Reminder.mk "u1" "call mom" "2025-01-01T09:00:00+02:00").into_datetime
      = PanicOr.ok (FixedDateTime.mk 2025 1 1 9 0 0 0 120).timestampNanos) ∧
    ((Reminder.mk "u2" "m" "soonish").into_datetime
      = PanicOr.panicked "called Result::unwrap() on an Err value") ∧
    (∃ (rem : Reminder) (w' : World),
      create_reminder baseWorld ⟨"m", "soonish"⟩ = (Except.ok rem, w') ∧
      rem ∈ w'.rows ∧
      rem.into_datetime
        = PanicOr.panicked "called Result::unwrap() on an Err value") :=
  ⟨into_datetime_ok_or_panics.1 _ (FixedDateTime.mk 2025 1 1 9 0 0 0 120) rfl,
   into_datetime_ok_or_panics.2.1 _ rfl,
   into_datetime_ok_or_panics.2.2 baseWorld ⟨"m", "soonish"⟩ rfl rfl⟩

end Dumbphone
